import Mathlib

/-!
# Shallow embedding of the XVM pallet dispatcher

This file models `pallets/xvm/src/lib.rs` of the Astar repository: the
cross-virtual-machine call dispatcher (`do_call`), its two VM adapters
(`evm_call`, `wasm_call`) and the public entry points (`call`,
`call_without_execution`).

Modelling decisions:
- `Weight` (Substrate) is a pair of `u64` components; we model the
  components as `Nat` and `saturating_add` / `saturating_sub` saturate at
  `2^64 - 1` and `0` respectively, exactly as `u64` arithmetic does.
- The thread-local reentrance flag `IN_XVM` is threaded explicitly: every
  stateful function takes the current flag and returns the new one.
- External collaborators (the overhead table `WeightInfo`, the gas/weight
  mapping, the account mapping, SCALE account decoding, the EVM transact
  engine and the WASM `bare_call` engine) are fields of an `Env` record;
  the engines may also transform the reentrance flag, which models an
  engine that re-enters the dispatcher.
- Byte sequences are `List Nat`.
-/

abbrev Bytes := List Nat
abbrev AccountId := Nat
abbrev Balance := Nat
abbrev H160 := List Nat

/-- Largest value of a `u64` component of a Substrate `Weight`. -/
def u64_max : Nat := 2 ^ 64 - 1

/-- Substrate `Weight`: a `ref_time` and a `proof_size` component. -/
structure Weight where
  ref_time : Nat
  proof_size : Nat
deriving DecidableEq, Repr

/-- `Weight::zero()`. -/
def Weight.zero : Weight := ⟨0, 0⟩

/-- `Weight::saturating_add`: componentwise `u64` saturating addition. -/
def Weight.saturating_add (a b : Weight) : Weight :=
  ⟨min (a.ref_time + b.ref_time) u64_max, min (a.proof_size + b.proof_size) u64_max⟩

/-- `Weight::saturating_sub`: componentwise `u64` saturating subtraction
(`Nat` subtraction already truncates at zero). -/
def Weight.saturating_sub (a b : Weight) : Weight :=
  ⟨a.ref_time - b.ref_time, a.proof_size - b.proof_size⟩

/-- Componentwise order on weights (`Weight::all_lte` in Substrate). -/
def Weight.le (a b : Weight) : Prop :=
  a.ref_time ≤ b.ref_time ∧ a.proof_size ≤ b.proof_size

instance (a b : Weight) : Decidable (a.le b) :=
  inferInstanceAs (Decidable (a.ref_time ≤ b.ref_time ∧ a.proof_size ≤ b.proof_size))

/-- A weight whose components fit in `u64`, as every weight produced by the
Rust code does by its type. -/
def Weight.Valid (a : Weight) : Prop :=
  a.ref_time ≤ u64_max ∧ a.proof_size ≤ u64_max

instance (a : Weight) : Decidable a.Valid :=
  inferInstanceAs (Decidable (a.ref_time ≤ u64_max ∧ a.proof_size ≤ u64_max))

/-- The two supported virtual machines (`astar_primitives::xvm::VmId`). -/
inductive VmId
  | Evm
  | Wasm
deriving DecidableEq, Repr

/-- Modelled from the spec: the Call Context (`astar_primitives::xvm::Context`,
not under `src/`) supplies the identifier of the calling VM and the weight
limit available for the entire cross-VM call including overhead. -/
structure Context where
  source_vm_id : VmId
  weight_limit : Weight
deriving DecidableEq, Repr

/-- Modelled from the spec: the Error failure family
(`astar_primitives::xvm::FailureError`, not under `src/`): dispatch-level
failures — same-VM call, reentrance, or an opaque VM-internal error carrying
a diagnostic string. -/
inductive FailureError
  | SameVmCallDenied
  | ReentranceDenied
  | VmError (msg : String)
deriving DecidableEq, Repr

/-- Modelled from the spec: the Revert failure family
(`astar_primitives::xvm::FailureRevert`, not under `src/`): malformed
target, oversized input, or a revert deliberately returned by the called VM
with its payload bytes. -/
inductive FailureRevert
  | InvalidTarget
  | InputTooLarge
  | VmRevert (data : Bytes)
deriving DecidableEq, Repr

/-- Modelled from the spec: the tagged failure reason, one of the two
families. -/
inductive FailureReason
  | revert (r : FailureRevert)
  | error (e : FailureError)
deriving DecidableEq, Repr

/-- Modelled from the spec: a Call Failure carries its reason and the cost
consumed up to the point of failure (`astar_primitives::xvm::CallFailure`,
not under `src/`). -/
structure CallFailure where
  reason : FailureReason
  used_weight : Weight
deriving DecidableEq, Repr

/-- Factory `CallFailure::error(reason, used_weight)`. -/
def CallFailure.error (e : FailureError) (used_weight : Weight) : CallFailure :=
  ⟨.error e, used_weight⟩

/-- Factory `CallFailure::revert(reason, used_weight)`. -/
def CallFailure.revert (r : FailureRevert) (used_weight : Weight) : CallFailure :=
  ⟨.revert r, used_weight⟩

/-- Modelled from the spec: a successful Call Output: returned bytes plus
total consumed cost (`astar_primitives::xvm::CallOutput`, not under
`src/`); `CallOutput::new(output, used_weight)`. -/
structure CallOutput where
  output : Bytes
  used_weight : Weight
deriving DecidableEq, Repr

instance {ε α : Type} [DecidableEq ε] [DecidableEq α] : DecidableEq (Except ε α) :=
  fun a b =>
    match a, b with
    | .ok x, .ok y =>
      if h : x = y then .isTrue (by rw [h]) else .isFalse (by intro he; cases he; exact h rfl)
    | .error x, .error y =>
      if h : x = y then .isTrue (by rw [h]) else .isFalse (by intro he; cases he; exact h rfl)
    | .ok _, .error _ => .isFalse (by intro he; cases he)
    | .error _, .ok _ => .isFalse (by intro he; cases he)

/-- `astar_primitives::xvm::CallResult = Result<CallOutput, CallFailure>`. -/
abbrev CallResult := Except CallFailure CallOutput

/-- The checked Ethereum transaction assembled by `evm_call` and handed to
the EVM engine (`astar_primitives::ethereum_checked::CheckedEthereumTx`);
`maybe_access_list` is always `none` here. -/
structure CheckedEthereumTx where
  gas_limit : Nat
  target : H160
  value : Nat
  input : Bytes
  maybe_access_list : Option Unit
deriving DecidableEq, Repr

/-- `fp_evm::ExitReason`, as far as `evm_call` inspects it: the sub-variants
of `Succeed` and `Revert` are ignored by the code (`Succeed(_)`,
`Revert(_)`), the `Error` and `Fatal` payloads only feed a diagnostic
string. -/
inductive ExitReason
  | Succeed
  | Revert
  | Error (msg : String)
  | Fatal (msg : String)
deriving DecidableEq, Repr

/-- The call info returned by the EVM engine: exit reason plus returned
bytes (`call_info.value`). -/
structure CallInfo where
  exit_reason : ExitReason
  value : Bytes
deriving DecidableEq, Repr

/-- `PostDispatchInfo`: the actual weight the engine reports, if any. -/
structure PostDispatchInfo where
  actual_weight : Option Weight
deriving DecidableEq, Repr

/-- The error side of `xvm_transact`: a dispatch error with post-dispatch
info (`e.post_info.actual_weight`) and a diagnostic (`e.error`). -/
structure DispatchErrorWithPostInfo where
  post_info : PostDispatchInfo
  error : String
deriving DecidableEq, Repr

/-- Outcome of `T::EthereumTransact::xvm_transact`. -/
abbrev EvmTransactOutcome := Except DispatchErrorWithPostInfo (PostDispatchInfo × CallInfo)

/-- `pallet_contracts_primitives::ExecReturnValue`, as far as `wasm_call`
inspects it: whether `flags` contains `ReturnFlags::REVERT`, and the data. -/
structure ExecReturnValue where
  revert_flag : Bool
  data : Bytes
deriving DecidableEq, Repr

/-- Result of `pallet_contracts::bare_call`: consumed gas (a weight) and
either a return value or an error rendered as a diagnostic string. -/
structure ContractExecResult where
  gas_consumed : Weight
  result : Except String ExecReturnValue
deriving DecidableEq, Repr

/-- The external collaborators of the dispatcher, abstracted as a record:
the overhead table (`WeightInfo`), the EVM input size bound
(`EthereumTxInput` is a bounded vector), the gas/weight mapping
(`T::GasWeightMapping::weight_to_gas`), the account mapping
(`T::AccountMapping::into_h160`), SCALE decoding of a `T::AccountId`, and
the two engines. The engines take and return the reentrance flag as well,
so that an engine that itself touches the dispatcher state is in scope. -/
structure Env where
  evm_call_overheads : Weight
  wasm_call_overheads : Weight
  max_ethereum_tx_input : Nat
  weight_to_gas : Weight → Nat
  into_h160 : AccountId → H160
  decode_account_id : Bytes → Option AccountId
  evm_transact : H160 → CheckedEthereumTx → Bool → EvmTransactOutcome × Bool
  bare_call : AccountId → AccountId → Balance → Weight → Option Balance → Bytes → Bool →
    ContractExecResult × Bool

/-- SCALE decoding of an `H160` from a byte slice: reads 20 bytes, fails if
fewer are available (`Decode::decode(&mut target.as_ref())`). -/
def decode_h160 (bs : Bytes) : Option H160 :=
  if 20 ≤ bs.length then some (bs.take 20) else none

/-- The overhead table lookup at the head of `do_call`:
`match vm_id { VmId::Evm => evm_call_overheads(), VmId::Wasm => wasm_call_overheads() }`. -/
def vm_overheads (env : Env) : VmId → Weight
  | .Evm => env.evm_call_overheads
  | .Wasm => env.wasm_call_overheads

/-- The `match transact_result` block at the end of `evm_call`
(lib.rs lines 237-271): translate the EVM engine outcome into a
`CallResult`, adding the overheads to the weight the engine reports. -/
def evm_handle_outcome (overheads : Weight) (tr : EvmTransactOutcome) : CallResult :=
  match tr with
  | .ok (post_dispatch_info, call_info) =>
    let used_weight :=
      (post_dispatch_info.actual_weight.getD Weight.zero).saturating_add overheads
    match call_info.exit_reason with
    | .Succeed => .ok ⟨call_info.value, used_weight⟩
    | .Revert => .error (CallFailure.revert (.VmRevert call_info.value) used_weight)
    | .Error err =>
      .error (CallFailure.error (.VmError ("EVM call error: " ++ err)) used_weight)
    | .Fatal err =>
      .error (CallFailure.error (.VmError ("EVM call error: " ++ err)) used_weight)
  | .error e =>
    let used_weight :=
      (e.post_info.actual_weight.getD Weight.zero).saturating_add overheads
    .error (CallFailure.error (.VmError ("EVM call error: " ++ e.error)) used_weight)

/-- `Pallet::evm_call` (lib.rs lines 187-272). Returns the `CallResult`
paired with the reentrance flag after the call. -/
def evm_call (env : Env) (context : Context) (source : AccountId) (target : Bytes)
    (input : Bytes) (value : Balance) (overheads : Weight) (skip_execution : Bool)
    (flag : Bool) : CallResult × Bool :=
  if target.length = 20 then
    match decode_h160 target with
    | none => (.error (CallFailure.revert .InvalidTarget overheads), flag)
    | some target_decoded =>
      if input.length ≤ env.max_ethereum_tx_input then
        let value_u256 := value
        let weight_limit := context.weight_limit.saturating_sub overheads
        let gas_limit := env.weight_to_gas weight_limit
        let src := env.into_h160 source
        let tx : CheckedEthereumTx :=
          { gas_limit := gas_limit
            target := target_decoded
            value := value_u256
            input := input
            maybe_access_list := none }
        if skip_execution then
          (.ok ⟨[], overheads⟩, flag)
        else
          let tr := env.evm_transact src tx flag
          (evm_handle_outcome overheads tr.1, tr.2)
      else (.error (CallFailure.revert .InputTooLarge overheads), flag)
  else (.error (CallFailure.revert .InvalidTarget overheads), flag)

/-- The tail of `wasm_call` (lib.rs lines 317-330): translate a
`bare_call` result into a `CallResult`, adding the overheads to the gas the
engine consumed. -/
def wasm_handle_result (overheads : Weight) (cr : ContractExecResult) : CallResult :=
  let used_weight := cr.gas_consumed.saturating_add overheads
  match cr.result with
  | .ok val =>
    if val.revert_flag then
      .error (CallFailure.revert (.VmRevert val.data) used_weight)
    else
      .ok ⟨val.data, used_weight⟩
  | .error err =>
    .error (CallFailure.error (.VmError ("WASM call error: " ++ err)) used_weight)

/-- `Pallet::wasm_call` (lib.rs lines 274-331). Returns the `CallResult`
paired with the reentrance flag after the call. -/
def wasm_call (env : Env) (context : Context) (source : AccountId) (target : Bytes)
    (input : Bytes) (value : Balance) (overheads : Weight)
    (storage_deposit_limit : Option Balance) (skip_execution : Bool)
    (flag : Bool) : CallResult × Bool :=
  match env.decode_account_id target with
  | none => (.error (CallFailure.revert .InvalidTarget overheads), flag)
  | some dest =>
    let weight_limit := context.weight_limit.saturating_sub overheads
    if skip_execution then
      (.ok ⟨[], overheads⟩, flag)
    else
      let cr := env.bare_call source dest value weight_limit storage_deposit_limit input flag
      (wasm_handle_result overheads cr.1, cr.2)

/-- `Pallet::do_call` (lib.rs lines 133-185). The thread-local `IN_XVM`
flag is passed in and the new flag is returned alongside the result:
`IN_XVM.with(|x| x.replace(true))` sets it and yields the old value, and
`IN_XVM.with(|x| x.take())` clears it on every path that reaches it. -/
def do_call (env : Env) (flag : Bool) (context : Context) (vm_id : VmId)
    (source : AccountId) (target : Bytes) (input : Bytes) (value : Balance)
    (storage_deposit_limit : Option Balance) (skip_execution : Bool) :
    CallResult × Bool :=
  let overheads := vm_overheads env vm_id
  if context.source_vm_id = vm_id then
    (.error (CallFailure.error .SameVmCallDenied overheads), flag)
  else
    -- replace(true): the old value decides reentrance, the flag is now true.
    if flag then
      (.error (CallFailure.error .ReentranceDenied overheads), true)
    else
      let res :=
        match vm_id with
        | .Evm =>
          evm_call env context source target input value overheads skip_execution true
        | .Wasm =>
          wasm_call env context source target input value overheads
            storage_deposit_limit skip_execution true
      -- take(): the flag is false again whatever the adapter and engine did.
      (res.1, false)

/-- `XvmCall::call` for `Pallet` (lib.rs lines 106-125): the public entry
point, always dispatching with `skip_execution = false`. -/
def call (env : Env) (flag : Bool) (context : Context) (vm_id : VmId)
    (source : AccountId) (target : Bytes) (input : Bytes) (value : Balance)
    (storage_deposit_limit : Option Balance) : CallResult × Bool :=
  do_call env flag context vm_id source target input value storage_deposit_limit false

/-- `Pallet::call_without_execution` (lib.rs lines 334-353): the
benchmark-only entry point, always dispatching with `skip_execution = true`. -/
def call_without_execution (env : Env) (flag : Bool) (context : Context) (vm_id : VmId)
    (source : AccountId) (target : Bytes) (input : Bytes) (value : Balance)
    (storage_deposit_limit : Option Balance) : CallResult × Bool :=
  do_call env flag context vm_id source target input value storage_deposit_limit true

/-- The consumed cost carried by a call result, on either side. -/
def CallResult.consumed : CallResult → Weight
  | .ok o => o.used_weight
  | .error f => f.used_weight

/-! ## Concrete instances used by the witnesses -/

/-- A concrete environment: overheads 100/10 for EVM and 200/20 for WASM,
EVM input bound 3 bytes, a gas mapping returning the ref-time component, an
account mapping to 20 repeated bytes, account decoding reading the head
byte, an EVM engine that succeeds with data `[9]` and actual weight
`(7, 7)`, and a WASM engine that succeeds without the revert flag with data
`[4]` and gas `(11, 11)`. Neither engine touches the reentrance flag. -/
def env0 : Env where
  evm_call_overheads := ⟨100, 10⟩
  wasm_call_overheads := ⟨200, 20⟩
  max_ethereum_tx_input := 3
  weight_to_gas := fun w => w.ref_time
  into_h160 := fun a => List.replicate 20 a
  decode_account_id := fun bs => bs.head?
  evm_transact := fun _ _ flag => (.ok (⟨some ⟨7, 7⟩⟩, ⟨.Succeed, [9]⟩), flag)
  bare_call := fun _ _ _ _ _ _ flag => (⟨⟨11, 11⟩, .ok ⟨false, [4]⟩⟩, flag)

/-- A 20-byte target. -/
def tgt20 : Bytes := List.replicate 20 1

/-- A context calling out of the WASM VM with weight limit `(1000, 100)`. -/
def ctxW : Context := ⟨.Wasm, ⟨1000, 100⟩⟩

/-- A context calling out of the EVM VM with weight limit `(1000, 100)`. -/
def ctxE : Context := ⟨.Evm, ⟨1000, 100⟩⟩

/-! ## Helper lemmas on weights and the outcome handlers -/

lemma Weight.le_rfl (w : Weight) : w.le w := ⟨Nat.le_refl _, Nat.le_refl _⟩

lemma Weight.le_saturating_add (a b : Weight) (h : b.Valid) :
    b.le (a.saturating_add b) :=
  ⟨Nat.le_min.mpr ⟨Nat.le_add_left _ _, h.1⟩, Nat.le_min.mpr ⟨Nat.le_add_left _ _, h.2⟩⟩

lemma evm_handle_outcome_consumed (ov : Weight) (tr : EvmTransactOutcome)
    (h : ov.Valid) : ov.le (evm_handle_outcome ov tr).consumed := by
  rcases tr with e | ⟨pdi, ci⟩
  · exact Weight.le_saturating_add _ _ h
  · rcases ci with ⟨er, v⟩
    cases er <;> exact Weight.le_saturating_add _ _ h

lemma wasm_handle_result_consumed (ov : Weight) (cr : ContractExecResult)
    (h : ov.Valid) : ov.le (wasm_handle_result ov cr).consumed := by
  rcases cr with ⟨g, e | ⟨rf, data⟩⟩
  · exact Weight.le_saturating_add _ _ h
  · cases rf
    · simp only [wasm_handle_result, Bool.false_eq_true, if_false, CallResult.consumed]
      exact Weight.le_saturating_add _ _ h
    · simp only [wasm_handle_result, if_true, CallResult.consumed]
      exact Weight.le_saturating_add _ _ h

lemma evm_call_consumed (env : Env) (context : Context) (source : AccountId)
    (target input : Bytes) (value : Balance) (ov : Weight) (skip flag : Bool)
    (h : ov.Valid) :
    ov.le (evm_call env context source target input value ov skip flag).1.consumed := by
  unfold evm_call
  split
  · cases hd : decode_h160 target with
    | none => simp [hd, CallResult.consumed, CallFailure.revert, Weight.le_rfl]
    | some t =>
      simp only [hd]
      split
      · split
        · exact Weight.le_rfl ov
        · exact evm_handle_outcome_consumed ov _ h
      · exact Weight.le_rfl ov
  · exact Weight.le_rfl ov

lemma wasm_call_consumed (env : Env) (context : Context) (source : AccountId)
    (target input : Bytes) (value : Balance) (ov : Weight)
    (sdl : Option Balance) (skip flag : Bool) (h : ov.Valid) :
    ov.le (wasm_call env context source target input value ov sdl skip flag).1.consumed := by
  unfold wasm_call
  cases hd : env.decode_account_id target with
  | none => exact Weight.le_rfl ov
  | some dest =>
    simp only [hd]
    split
    · exact Weight.le_rfl ov
    · exact wasm_handle_result_consumed ov _ h

/-! ## Claims -/

/-- C1: for every call request whose context source VM equals the target
VM, `do_call` returns an Error-family failure `SameVmCallDenied` whose
consumed cost is exactly the target VM's table overhead, and the
reentrance flag is untouched. The statement holds for every `Env`, so the
result does not depend on either VM adapter or engine: no adapter or
engine is invoked. -/
theorem c1_same_vm_call_denied (env : Env) (flag : Bool) (context : Context)
    (vm_id : VmId) (source : AccountId) (target input : Bytes) (value : Balance)
    (sdl : Option Balance) (skip : Bool)
    (h : context.source_vm_id = vm_id) :
    do_call env flag context vm_id source target input value sdl skip =
      (.error (CallFailure.error .SameVmCallDenied (vm_overheads env vm_id)), flag) := by
  unfold do_call
  simp [h]

/-- Witness for C1 at a concrete input. -/
theorem c1_same_vm_call_denied_witness :
    do_call env0 false ctxE .Evm 0 tgt20 [] 0 none false =
      (.error (CallFailure.error .SameVmCallDenied (vm_overheads env0 .Evm)), false) :=
  c1_same_vm_call_denied env0 false ctxE .Evm 0 tgt20 [] 0 none false rfl

/-- C2 counterexample: a nested dispatch (reentrance flag already set)
whose source VM equals the target VM is rejected with `SameVmCallDenied`,
not `ReentranceDenied`: the same-VM check fires before the reentrance
check, so the claim "the nested call always returns ReentranceDenied" is
false as stated. -/
theorem c2_counterexample :
    (do_call env0 true ctxE .Evm 0 tgt20 [] 0 none false).1 =
      .error (CallFailure.error .SameVmCallDenied (vm_overheads env0 .Evm)) ∧
    FailureError.SameVmCallDenied ≠ FailureError.ReentranceDenied := by
  constructor
  · rfl
  · decide

/-- C2 (amended): a nested dispatch whose source VM differs from the target
VM is rejected with `Error(ReentranceDenied)` at exactly the target VM's
overhead cost; and every outer dispatch, started with the flag clear,
finishes with the flag clear again, whatever its result and whatever the
adapters and engines do. -/
theorem c2_reentrance_guard :
    (∀ (env : Env) (context : Context) (vm_id : VmId) (source : AccountId)
        (target input : Bytes) (value : Balance) (sdl : Option Balance) (skip : Bool),
        context.source_vm_id ≠ vm_id →
        (do_call env true context vm_id source target input value sdl skip).1 =
          .error (CallFailure.error .ReentranceDenied (vm_overheads env vm_id))) ∧
    (∀ (env : Env) (context : Context) (vm_id : VmId) (source : AccountId)
        (target input : Bytes) (value : Balance) (sdl : Option Balance) (skip : Bool),
        (do_call env false context vm_id source target input value sdl skip).2 = false) := by
  constructor
  · intro env context vm_id source target input value sdl skip h
    unfold do_call
    simp [h]
  · intro env context vm_id source target input value sdl skip
    unfold do_call
    split
    · rfl
    · rfl

/-- Witness for C2 at concrete inputs: a nested cross-VM dispatch is
rejected with `ReentranceDenied`, and an outer dispatch leaves the flag
clear. -/
theorem c2_reentrance_guard_witness :
    (do_call env0 true ctxW .Evm 0 tgt20 [] 0 none false).1 =
      .error (CallFailure.error .ReentranceDenied (vm_overheads env0 .Evm)) ∧
    (do_call env0 false ctxW .Evm 0 tgt20 [] 0 none false).2 = false :=
  ⟨c2_reentrance_guard.1 env0 ctxW .Evm 0 tgt20 [] 0 none false (by decide),
   c2_reentrance_guard.2 env0 ctxW .Evm 0 tgt20 [] 0 none false⟩

/-- C10: a nested dispatch rejected with `ReentranceDenied` (reentrance
flag already set, source VM different from target VM) returns with the
flag still set to true: the early return skips the flag-clearing step, so
the rejection mutates no dispatcher state and the outer dispatch's guard
stays intact. -/
theorem c10_nested_rejection_preserves_flag (env : Env) (context : Context)
    (vm_id : VmId) (source : AccountId) (target input : Bytes) (value : Balance)
    (sdl : Option Balance) (skip : Bool)
    (h : context.source_vm_id ≠ vm_id) :
    do_call env true context vm_id source target input value sdl skip =
      (.error (CallFailure.error .ReentranceDenied (vm_overheads env vm_id)), true) := by
  unfold do_call
  simp [h]

/-- Witness for C10 at a concrete input. -/
theorem c10_nested_rejection_preserves_flag_witness :
    do_call env0 true ctxW .Evm 0 tgt20 [] 0 none false =
      (.error (CallFailure.error .ReentranceDenied (vm_overheads env0 .Evm)), true) :=
  c10_nested_rejection_preserves_flag env0 ctxW .Evm 0 tgt20 [] 0 none false (by decide)

/-- C3: for every dispatch, whatever the outcome (Ok, Revert-family or
Error-family, on either VM path), the consumed cost carried by the result
is at least the target VM's table overhead; the overhead is a `u64` weight
in the source, stated here as validity. -/
theorem c3_cost_at_least_overhead (env : Env) (flag : Bool) (context : Context)
    (vm_id : VmId) (source : AccountId) (target input : Bytes) (value : Balance)
    (sdl : Option Balance) (skip : Bool)
    (h : (vm_overheads env vm_id).Valid) :
    (vm_overheads env vm_id).le
      ((do_call env flag context vm_id source target input value sdl skip).1.consumed) := by
  unfold do_call
  split
  · exact Weight.le_rfl _
  · split
    · exact Weight.le_rfl _
    · cases vm_id with
      | Evm => exact evm_call_consumed env context source target input value _ skip true h
      | Wasm => exact wasm_call_consumed env context source target input value _ sdl skip true h

/-- Witness for C3 at a concrete input. -/
theorem c3_cost_at_least_overhead_witness :
    (vm_overheads env0 .Evm).Valid ∧
    (vm_overheads env0 .Evm).le
      ((do_call env0 false ctxW .Evm 0 tgt20 [] 0 none false).1.consumed) :=
  ⟨by decide,
   c3_cost_at_least_overhead env0 false ctxW .Evm 0 tgt20 [] 0 none false (by decide)⟩

/-- C4: validation failures are Revert-family, never Error-family: an
EVM-path target of length other than 20 bytes yields
`Revert(InvalidTarget)` at overhead cost without reaching the engine (the
result is the same for every `Env`); with a well-formed target, an input
longer than the EVM input bound yields `Revert(InputTooLarge)`; a
WASM-path target that fails account decoding yields
`Revert(InvalidTarget)`. -/
theorem c4_validation_failures_revert :
    (∀ (env : Env) (context : Context) (source : AccountId) (target input : Bytes)
        (value : Balance) (ov : Weight) (skip flag : Bool),
        target.length ≠ 20 →
        evm_call env context source target input value ov skip flag =
          (.error (CallFailure.revert .InvalidTarget ov), flag)) ∧
    (∀ (env : Env) (context : Context) (source : AccountId) (target input : Bytes)
        (value : Balance) (ov : Weight) (skip flag : Bool),
        target.length = 20 →
        env.max_ethereum_tx_input < input.length →
        evm_call env context source target input value ov skip flag =
          (.error (CallFailure.revert .InputTooLarge ov), flag)) ∧
    (∀ (env : Env) (context : Context) (source : AccountId) (target input : Bytes)
        (value : Balance) (ov : Weight) (sdl : Option Balance) (skip flag : Bool),
        env.decode_account_id target = none →
        wasm_call env context source target input value ov sdl skip flag =
          (.error (CallFailure.revert .InvalidTarget ov), flag)) := by
  refine ⟨?_, ?_, ?_⟩
  · intro env context source target input value ov skip flag h
    unfold evm_call
    simp [h]
  · intro env context source target input value ov skip flag hlen hinp
    unfold evm_call decode_h160
    simp [hlen, Nat.not_le.mpr hinp]
  · intro env context source target input value ov sdl skip flag h
    unfold wasm_call
    simp [h]

/-- Witness for C4 at concrete inputs: a 19-byte EVM target, an oversized
EVM input, and an undecodable WASM target. -/
theorem c4_validation_failures_revert_witness :
    evm_call env0 ctxW 0 (List.replicate 19 1) [] 0 ⟨100, 10⟩ false true =
      (.error (CallFailure.revert .InvalidTarget ⟨100, 10⟩), true) ∧
    evm_call env0 ctxW 0 tgt20 [5, 5, 5, 5] 0 ⟨100, 10⟩ false true =
      (.error (CallFailure.revert .InputTooLarge ⟨100, 10⟩), true) ∧
    wasm_call env0 ctxE 0 [] [] 0 ⟨200, 20⟩ none false true =
      (.error (CallFailure.revert .InvalidTarget ⟨200, 20⟩), true) :=
  ⟨c4_validation_failures_revert.1 env0 ctxW 0 (List.replicate 19 1) [] 0 ⟨100, 10⟩
     false true (by decide),
   c4_validation_failures_revert.2.1 env0 ctxW 0 tgt20 [5, 5, 5, 5] 0 ⟨100, 10⟩
     false true (by decide) (by decide),
   c4_validation_failures_revert.2.2 env0 ctxE 0 [] [] 0 ⟨200, 20⟩ none
     false true rfl⟩

/-- C5: with skip-execution enabled and validation passing (different VMs,
flag clear, well-formed target, input within bound), `do_call` returns
`Ok` with empty output and consumed cost exactly the target VM's overhead,
for any target, input and value satisfying those conditions; the statement
holds for every `Env`, so the engines are never consulted. -/
theorem c5_skip_execution :
    (∀ (env : Env) (context : Context) (source : AccountId) (target input : Bytes)
        (value : Balance) (sdl : Option Balance),
        context.source_vm_id ≠ .Evm →
        target.length = 20 →
        input.length ≤ env.max_ethereum_tx_input →
        do_call env false context .Evm source target input value sdl true =
          (.ok ⟨[], vm_overheads env .Evm⟩, false)) ∧
    (∀ (env : Env) (context : Context) (source : AccountId) (target input : Bytes)
        (value : Balance) (sdl : Option Balance) (dest : AccountId),
        context.source_vm_id ≠ .Wasm →
        env.decode_account_id target = some dest →
        do_call env false context .Wasm source target input value sdl true =
          (.ok ⟨[], vm_overheads env .Wasm⟩, false)) := by
  constructor
  · intro env context source target input value sdl hvm hlen hinp
    unfold do_call evm_call decode_h160
    simp [hvm, hlen, hinp]
  · intro env context source target input value sdl dest hvm hdec
    unfold do_call wasm_call
    simp [hvm, hdec]

/-- Witness for C5 at concrete inputs, one per VM path. -/
theorem c5_skip_execution_witness :
    do_call env0 false ctxW .Evm 0 tgt20 [8] 3 none true =
      (.ok ⟨[], vm_overheads env0 .Evm⟩, false) ∧
    do_call env0 false ctxE .Wasm 0 [7] [8] 3 (some 2) true =
      (.ok ⟨[], vm_overheads env0 .Wasm⟩, false) :=
  ⟨c5_skip_execution.1 env0 ctxW 0 tgt20 [8] 3 none (by decide) (by decide) (by decide),
   c5_skip_execution.2 env0 ctxE 0 [7] [8] 3 (some 2) 7 (by decide) rfl⟩

/-- C6: the weight budget handed to the VM engine is
`context.weight_limit.saturating_sub overheads`, and the saturating
subtraction is zero whenever the overhead reaches or exceeds the weight
limit. The second and third conjuncts state the budget fact for the two
paths: replacing the engine by one that overrides the received budget
(EVM: the gas limit of the transaction; WASM: the weight-limit argument)
with `weight_limit.saturating_sub overheads` changes nothing, i.e. the
engine only ever sees exactly that budget. -/
theorem c6_weight_budget :
    (∀ lim ov : Weight, lim.le ov → lim.saturating_sub ov = Weight.zero) ∧
    (∀ (env : Env) (context : Context) (source : AccountId) (target input : Bytes)
        (value : Balance) (ov : Weight) (skip flag : Bool),
        evm_call
          { env with
            evm_transact := fun s tx fl =>
              env.evm_transact s
                { tx with
                  gas_limit :=
                    env.weight_to_gas (context.weight_limit.saturating_sub ov) } fl }
          context source target input value ov skip flag =
          evm_call env context source target input value ov skip flag) ∧
    (∀ (env : Env) (context : Context) (source : AccountId) (target input : Bytes)
        (value : Balance) (ov : Weight) (sdl : Option Balance) (skip flag : Bool),
        wasm_call
          { env with
            bare_call := fun s d v _w sd i fl =>
              env.bare_call s d v (context.weight_limit.saturating_sub ov) sd i fl }
          context source target input value ov sdl skip flag =
          wasm_call env context source target input value ov sdl skip flag) := by
  refine ⟨?_, ?_, ?_⟩
  · intro lim ov h
    unfold Weight.saturating_sub Weight.zero
    have h1 := h.1
    have h2 := h.2
    congr 1
    · omega
    · omega
  · intro env context source target input value ov skip flag
    rfl
  · intro env context source target input value ov sdl skip flag
    rfl

/-- Witness for C6: the zero-clamp conjunct at a concrete limit and
overhead with the overhead exceeding the limit. -/
theorem c6_weight_budget_witness :
    Weight.le ⟨5, 5⟩ ⟨7, 9⟩ ∧ Weight.saturating_sub ⟨5, 5⟩ ⟨7, 9⟩ = Weight.zero :=
  ⟨by decide, c6_weight_budget.1 ⟨5, 5⟩ ⟨7, 9⟩ (by decide)⟩

/-- C7: on the WASM path, when the engine returns success, the revert flag
decides the outcome: with the flag, `Err(Revert(VmRevert(payload)))` with
the payload forwarded unmodified; without it, `Ok` with the same data; in
both cases consumed cost is the engine's consumed weight plus the
overhead. -/
theorem c7_wasm_revert_flag (env : Env) (context : Context) (source : AccountId)
    (target input : Bytes) (value : Balance) (ov : Weight) (sdl : Option Balance)
    (flag : Bool) (dest : AccountId) (g : Weight) (rv : ExecReturnValue) (fl2 : Bool)
    (hdec : env.decode_account_id target = some dest)
    (hbc : env.bare_call source dest value (context.weight_limit.saturating_sub ov)
        sdl input flag = (⟨g, .ok rv⟩, fl2)) :
    wasm_call env context source target input value ov sdl false flag =
      ((if rv.revert_flag then
          .error (CallFailure.revert (.VmRevert rv.data) (g.saturating_add ov))
        else .ok ⟨rv.data, g.saturating_add ov⟩), fl2) := by
  unfold wasm_call
  simp only [hdec, Bool.false_eq_true, if_false, hbc]
  unfold wasm_handle_result
  rcases rv with ⟨rf, data⟩
  cases rf <;> simp

/-- An environment whose WASM engine reverts with payload `[1, 2]` and
consumed gas `(11, 11)`. -/
def env7 : Env :=
  { env0 with bare_call := fun _ _ _ _ _ _ flag => (⟨⟨11, 11⟩, .ok ⟨true, [1, 2]⟩⟩, flag) }

/-- Witness for C7 at a concrete input: the engine reverts with payload
`[1, 2]`, and the dispatcher forwards it at cost engine-consumed plus
overhead. -/
theorem c7_wasm_revert_flag_witness :
    wasm_call env7 ctxE 0 [7] [] 0 ⟨200, 20⟩ none false true =
      (.error (CallFailure.revert (.VmRevert [1, 2])
          (Weight.saturating_add ⟨11, 11⟩ ⟨200, 20⟩)), true) :=
  c7_wasm_revert_flag env7 ctxE 0 [7] [] 0 ⟨200, 20⟩ none true 7 ⟨11, 11⟩
    ⟨true, [1, 2]⟩ true rfl rfl

/-- An environment whose EVM engine fails at dispatch level (the outer
transact errors) with diagnostic "boom", reporting actual weight
`(3, 3)`. -/
def env8 : Env :=
  { env0 with evm_transact := fun _ _ fl => (.error ⟨⟨some ⟨3, 3⟩⟩, "boom"⟩, fl) }

/-- C8 counterexample: with overhead `(5, 5)` and the EVM engine failing to
execute while reporting partial weight `(3, 3)`, the dispatcher returns a
`VmError` whose consumed cost is `(8, 8)` — the partial weight plus the
overhead — which differs from the engine's reported partial weight
`(3, 3)`, so the claim "consumed cost equal to the engine's reported
partial weight" is false as stated. -/
theorem c8_counterexample :
    (evm_call env8 ctxW 0 tgt20 [] 0 ⟨5, 5⟩ false true).1 =
      .error (CallFailure.error (.VmError "EVM call error: boom") ⟨8, 8⟩) ∧
    (⟨8, 8⟩ : Weight) ≠ ⟨3, 3⟩ := by
  constructor
  · rfl
  · decide

/-- C8 (amended): when the EVM engine call itself fails to execute (the
outer transact returns an error), the dispatcher returns
`Err(Error(VmError(diagnostic)))` with consumed cost equal to the engine's
reported partial weight plus the target VM's overhead (saturating). -/
theorem c8_evm_dispatch_error (env : Env) (context : Context) (source : AccountId)
    (target input : Bytes) (value : Balance) (ov : Weight) (flag : Bool)
    (e : DispatchErrorWithPostInfo) (fl2 : Bool)
    (hlen : target.length = 20)
    (hinp : input.length ≤ env.max_ethereum_tx_input)
    (htr : env.evm_transact (env.into_h160 source)
        ⟨env.weight_to_gas (context.weight_limit.saturating_sub ov),
         target.take 20, value, input, none⟩ flag = (.error e, fl2)) :
    evm_call env context source target input value ov false flag =
      (.error (CallFailure.error (.VmError ("EVM call error: " ++ e.error))
          ((e.post_info.actual_weight.getD Weight.zero).saturating_add ov)), fl2) := by
  unfold evm_call decode_h160
  simp [hlen, hinp, htr, evm_handle_outcome]

/-- Witness for C8's amended theorem at a concrete input: overhead
`(5, 5)`, partial weight `(3, 3)`, consumed `(8, 8)`. -/
theorem c8_evm_dispatch_error_witness :
    evm_call env8 ctxW 0 tgt20 [] 0 ⟨5, 5⟩ false true =
      (.error (CallFailure.error (.VmError "EVM call error: boom")
          (Weight.saturating_add ⟨3, 3⟩ ⟨5, 5⟩)), true) :=
  c8_evm_dispatch_error env8 ctxW 0 tgt20 [] 0 ⟨5, 5⟩ true
    ⟨⟨some ⟨3, 3⟩⟩, "boom"⟩ true (by decide) (by decide) rfl

/-- C9: the public entry point `call` always dispatches with
`skip_execution = false` and the benchmark-only `call_without_execution`
always dispatches with `skip_execution = true`; consequently, through the
public interface the skip short-circuit is unreachable: whenever the
same-VM check, the reentrance check and validation pass, the result of
`call` is exactly the translation of the engine's outcome, on either VM
path — the engine is invoked. -/
theorem c9_public_entry_invokes_engine :
    (∀ (env : Env) (flag : Bool) (context : Context) (vm_id : VmId)
        (source : AccountId) (target input : Bytes) (value : Balance)
        (sdl : Option Balance),
        call env flag context vm_id source target input value sdl =
          do_call env flag context vm_id source target input value sdl false) ∧
    (∀ (env : Env) (flag : Bool) (context : Context) (vm_id : VmId)
        (source : AccountId) (target input : Bytes) (value : Balance)
        (sdl : Option Balance),
        call_without_execution env flag context vm_id source target input value sdl =
          do_call env flag context vm_id source target input value sdl true) ∧
    (∀ (env : Env) (context : Context) (source : AccountId) (target input : Bytes)
        (value : Balance) (sdl : Option Balance),
        context.source_vm_id ≠ .Evm →
        target.length = 20 →
        input.length ≤ env.max_ethereum_tx_input →
        (call env false context .Evm source target input value sdl).1 =
          evm_handle_outcome (vm_overheads env .Evm)
            (env.evm_transact (env.into_h160 source)
              ⟨env.weight_to_gas
                  (context.weight_limit.saturating_sub (vm_overheads env .Evm)),
               target.take 20, value, input, none⟩ true).1) ∧
    (∀ (env : Env) (context : Context) (source : AccountId) (target input : Bytes)
        (value : Balance) (sdl : Option Balance) (dest : AccountId),
        context.source_vm_id ≠ .Wasm →
        env.decode_account_id target = some dest →
        (call env false context .Wasm source target input value sdl).1 =
          wasm_handle_result (vm_overheads env .Wasm)
            (env.bare_call source dest value
              (context.weight_limit.saturating_sub (vm_overheads env .Wasm))
              sdl input true).1) := by
  refine ⟨fun _ _ _ _ _ _ _ _ _ => rfl, fun _ _ _ _ _ _ _ _ _ => rfl, ?_, ?_⟩
  · intro env context source target input value sdl hvm hlen hinp
    unfold call do_call evm_call decode_h160
    simp [hvm, hlen, hinp]
  · intro env context source target input value sdl dest hvm hdec
    unfold call do_call wasm_call
    simp [hvm, hdec]

/-- Witness for C9 at concrete inputs: both entry points agree with
`do_call` at the matching skip mode, and on both VM paths the public entry
point's result is the translated engine outcome. -/
theorem c9_public_entry_invokes_engine_witness :
    call env0 false ctxW .Evm 0 tgt20 [] 0 none =
      do_call env0 false ctxW .Evm 0 tgt20 [] 0 none false ∧
    call_without_execution env0 false ctxW .Evm 0 tgt20 [] 0 none =
      do_call env0 false ctxW .Evm 0 tgt20 [] 0 none true ∧
    (call env0 false ctxW .Evm 0 tgt20 [] 0 none).1 =
      evm_handle_outcome (vm_overheads env0 .Evm)
        (env0.evm_transact (env0.into_h160 0)
          ⟨env0.weight_to_gas
              (ctxW.weight_limit.saturating_sub (vm_overheads env0 .Evm)),
           tgt20.take 20, 0, [], none⟩ true).1 ∧
    (call env0 false ctxE .Wasm 0 [7] [] 0 none).1 =
      wasm_handle_result (vm_overheads env0 .Wasm)
        (env0.bare_call 0 7 0
          (ctxE.weight_limit.saturating_sub (vm_overheads env0 .Wasm))
          none [] true).1 :=
  ⟨c9_public_entry_invokes_engine.1 env0 false ctxW .Evm 0 tgt20 [] 0 none,
   c9_public_entry_invokes_engine.2.1 env0 false ctxW .Evm 0 tgt20 [] 0 none,
   c9_public_entry_invokes_engine.2.2.1 env0 ctxW 0 tgt20 [] 0 none
     (by decide) (by decide) (by decide),
   c9_public_entry_invokes_engine.2.2.2 env0 ctxE 0 [7] [] 0 none 7
     (by decide) rfl⟩
